import Mathlib

/-!
Verification development for the F1 telemetry comparison application.

The repository ships a React/TypeScript frontend (`src/frontend`, plus the
unnamed frontend modules) that talks to a FastAPI backend.  The backend's
numeric core — Distance Normalizer, Common-Axis Resampler, Delta-Time
Calculator and Comparison Assembler — is documented by the repository
(README, `ARCHITECTURE.md`, the mirrored Pydantic response types in the
frontend `types` module) but its Python sources are not part of the tree;
those components are modelled here from the specification.  The frontend
modules that are present (`apiService`/`f1ApiService`, the
`useTelemetryComparison` hook, `Dashboard.handleCompare`) are embedded
directly from their TypeScript sources.

All machine floats are modelled as rationals (ℚ); telemetry arithmetic in
the claims under study is order/length/identity reasoning that does not
depend on rounding.
-/

namespace F1Telemetry

/-- Modelled from the spec: one raw telemetry sample as delivered by the
external lookup collaborator (spec §3 LapSample): elapsed time (s), speed
(km/h), throttle (0-100), brake flag, gear, rpm, drs, and an optional
distance channel (the Distance Normalizer derives it when missing). -/
structure RawSample where
  time : ℚ
  speed : ℚ
  throttle : ℚ
  brake : Bool
  gear : ℕ
  rpm : ℚ
  drs : ℕ
  distance : Option ℚ
deriving DecidableEq, Inhabited

/-- A sample after distance normalisation: the distance channel is
guaranteed present (spec §4.1 output). -/
structure LapSample where
  time : ℚ
  speed : ℚ
  throttle : ℚ
  brake : Bool
  gear : ℕ
  rpm : ℚ
  drs : ℕ
  distance : ℚ
deriving DecidableEq, Inhabited

/-- Errors of the computation stages (spec §7 taxonomy; the stages'
errors are all fatal to the single request). -/
inductive CompareError where
  | notFound
  | insufficientData
  | axisOverlap
  | badPointCount
deriving DecidableEq, Inhabited

/-- Attach a (possibly derived) distance value to a raw sample. -/
def RawSample.withDistance (s : RawSample) (d : ℚ) : LapSample :=
  { time := s.time, speed := s.speed, throttle := s.throttle, brake := s.brake
    gear := s.gear, rpm := s.rpm, drs := s.drs, distance := d }

/-- Modelled from the spec (§4.1): pass-through branch — every sample
already carries a distance value, which is kept unchanged. -/
def passThrough (samples : List RawSample) : List LapSample :=
  samples.map (fun s => s.withDistance (s.distance.getD 0))

/-- Modelled from the spec (§4.1): trapezoidal accumulation
`distance[i] = distance[i-1] + average(speed[i-1], speed[i]) * Δt[i]`,
converting km/h to m/s via the factor 1000/3600. -/
def integrateFrom (prev : RawSample) (prevDist : ℚ) :
    List RawSample → List LapSample
  | [] => []
  | s :: rest =>
      let d := prevDist + ((prev.speed + s.speed) / 2) * (s.time - prev.time) * (1000 / 3600)
      s.withDistance d :: integrateFrom s d rest

/-- Modelled from the spec (§4.1): derive the whole distance channel by
integration, seeding `distance[0] = 0`. -/
def derivedLap : List RawSample → List LapSample
  | [] => []
  | s :: rest => s.withDistance 0 :: integrateFrom s 0 rest

/-- The raw distance channel, when present on every sample. -/
def rawDistances : List RawSample → Option (List ℚ)
  | [] => some []
  | s :: rest =>
      match s.distance, rawDistances rest with
      | some d, some ds => some (d :: ds)
      | _, _ => none

/-- Modelled from the spec (§4.1 Distance Normalizer): fail with
`InsufficientDataError` on fewer than 2 samples; pass a present,
monotonic non-decreasing distance channel through unchanged; otherwise
derive distance by trapezoidal integration of speed over time. -/
def normalizeDistance (samples : List RawSample) :
    Except CompareError (List LapSample) :=
  if samples.length < 2 then .error .insufficientData
  else
    match rawDistances samples with
    | some ds => if List.Chain' (· ≤ ·) ds then .ok (passThrough samples)
                 else .ok (derivedLap samples)
    | none => .ok (derivedLap samples)

/-- Largest recorded distance of a normalised lap (distance is monotone
non-decreasing, so this is the last sample's distance). -/
def maxDist (l : List LapSample) : ℚ :=
  ((l.map (fun s => s.distance)).getLast?).getD 0

/-- Smallest recorded distance of a normalised lap (the first sample's). -/
def minDist (l : List LapSample) : ℚ :=
  ((l.map (fun s => s.distance)).head?).getD 0

/-- Modelled from the spec (§4.2): the shared axis spans `[0, m]` with
`m = min (maxDist L1) (maxDist L2)`, divided into `n` evenly spaced
points, i.e. point `i` is `i * m / (n - 1)`. -/
def commonAxis (m : ℚ) (n : ℕ) : List ℚ :=
  (List.range n).map (fun i : ℕ => (i : ℚ) * m / ((n : ℚ) - 1))

/-- Modelled from the spec (§4.2): distance-based linear interpolation of
a continuous channel given `(distance, value)` knots in non-decreasing
distance order.  Below the first knot and at knots the boundary value is
returned exactly; beyond the last knot the last value is held. -/
def linInterp : List (ℚ × ℚ) → ℚ → ℚ
  | [], _ => 0
  | [(_, v)], _ => v
  | (x1, v1) :: (x2, v2) :: rest, d =>
      if d ≤ x1 then v1
      else if d ≤ x2 then v1 + (d - x1) * (v2 - v1) / (x2 - x1)
      else linInterp ((x2, v2) :: rest) d

/-- Modelled from the spec (§4.2): nearest-prior-sample ("step")
interpolation for discrete channels — the value at `d` is the value of
the last knot whose distance is ≤ `d`, and `dft` (the first sample's
value in the assembler) before the first knot. -/
def stepInterp {α : Type} : List (ℚ × α) → α → ℚ → α
  | [], dft, _ => dft
  | (x, v) :: rest, dft, d => if d < x then dft else stepInterp rest v d

/-- The `(distance, channel)` knot list of a normalised lap. -/
def chan {α : Type} (l : List LapSample) (f : LapSample → α) : List (ℚ × α) :=
  l.map (fun s => (s.distance, f s))

/-- First sample's channel value, or a default on the empty lap. -/
def headVal {α : Type} (l : List LapSample) (f : LapSample → α) (dft : α) : α :=
  match l with
  | [] => dft
  | s :: _ => f s

/-- Total lap time of a lap: elapsed time from its first to its last
sample (spec §4.3/§4.4: taken from the original timestamps, not from the
resampled curve). -/
def totalTime (l : List LapSample) : ℚ :=
  ((l.map (fun s => s.time)).getLast?).getD 0 - ((l.map (fun s => s.time)).head?).getD 0

/-- The `comparison_data` arrays and summary scalars of the wire response
(mirrors the `ComparisonTelemetry` interface of the frontend `types`
module, which mirrors the backend schema; the wire response additionally
wraps per-driver metadata blocks, which carry no computed telemetry). -/
structure ComparisonResult where
  distance : List ℚ
  driver1_speed : List ℚ
  driver2_speed : List ℚ
  driver1_throttle : List ℚ
  driver2_throttle : List ℚ
  driver1_brake : List Bool
  driver2_brake : List Bool
  driver1_gear : List ℕ
  driver2_gear : List ℕ
  driver1_rpm : List ℚ
  driver2_rpm : List ℚ
  driver1_drs : List ℕ
  driver2_drs : List ℕ
  delta_time : List ℚ
  lap_time_delta : ℚ
  max_speed_delta : ℚ
  data_points : ℕ
deriving DecidableEq, Inhabited

/-- Maximum of the pointwise absolute differences of two equal-length
sequences (spec §4.4 `max_speed_delta`). -/
def maxAbsDelta (xs ys : List ℚ) : ℚ :=
  (List.zipWith (fun a b => |a - b|) xs ys).foldr max 0

/-- Modelled from the spec (§4.2-§4.4): resample both normalised laps
onto the shared axis (linear interpolation for speed/throttle/rpm, step
interpolation for brake/gear/drs), compute the delta-time curve from the
original time-vs-distance series, and derive the summary scalars. -/
def assemble (l1 l2 : List LapSample) (n : ℕ) : ComparisonResult :=
  let m := min (maxDist l1) (maxDist l2)
  let axis := commonAxis m n
  let s1 := axis.map (linInterp (chan l1 (fun s => s.speed)))
  let s2 := axis.map (linInterp (chan l2 (fun s => s.speed)))
  { distance := axis
    driver1_speed := s1
    driver2_speed := s2
    driver1_throttle := axis.map (linInterp (chan l1 (fun s => s.throttle)))
    driver2_throttle := axis.map (linInterp (chan l2 (fun s => s.throttle)))
    driver1_brake := axis.map (stepInterp (chan l1 (fun s => s.brake)) (headVal l1 (fun s => s.brake) false))
    driver2_brake := axis.map (stepInterp (chan l2 (fun s => s.brake)) (headVal l2 (fun s => s.brake) false))
    driver1_gear := axis.map (stepInterp (chan l1 (fun s => s.gear)) (headVal l1 (fun s => s.gear) 0))
    driver2_gear := axis.map (stepInterp (chan l2 (fun s => s.gear)) (headVal l2 (fun s => s.gear) 0))
    driver1_rpm := axis.map (linInterp (chan l1 (fun s => s.rpm)))
    driver2_rpm := axis.map (linInterp (chan l2 (fun s => s.rpm)))
    driver1_drs := axis.map (stepInterp (chan l1 (fun s => s.drs)) (headVal l1 (fun s => s.drs) 0))
    driver2_drs := axis.map (stepInterp (chan l2 (fun s => s.drs)) (headVal l2 (fun s => s.drs) 0))
    delta_time := axis.map (fun d =>
      linInterp (chan l2 (fun s => s.time)) d - linInterp (chan l1 (fun s => s.time)) d)
    lap_time_delta := totalTime l2 - totalTime l1
    max_speed_delta := maxAbsDelta s1 s2
    data_points := n }

/-- Modelled from the spec (§4.2, §4.4, §8): the full computation
pipeline on two raw laps — point count must be ≥ 2, both laps pass the
Distance Normalizer, the two distance ranges must overlap, and the
assembler packages the result.  Every stage failure aborts the request
with a single structured error (spec §7 propagation policy). -/
def compareLaps (raw1 raw2 : List RawSample) (n : ℕ) :
    Except CompareError ComparisonResult :=
  if n < 2 then .error .badPointCount
  else
    match normalizeDistance raw1, normalizeDistance raw2 with
    | .error e, _ => .error e
    | .ok _, .error e => .error e
    | .ok l1, .ok l2 =>
        if maxDist l1 < minDist l2 ∨ maxDist l2 < minDist l1 then .error .axisOverlap
        else .ok (assemble l1 l2 n)

/-- Modelled from the spec (§6): the single core operation exposed to the
API layer.  The external Session/Driver Lookup collaborator is a
parameter resolving `(year, event, sessionType, driverId, lapSelector)`
to a raw lap (`none` = `NotFoundError`); `lap1`/`lap2` are the optional
lap selectors (`none` = fastest lap); `pointCount` defaults to 1000. -/
def compareTelemetry
    (resolveLap : ℤ → String → String → String → Option ℕ → Option (List RawSample))
    (year : ℤ) (event sessionType driver1Id driver2Id : String)
    (lap1 lap2 : Option ℕ) (pointCount : ℕ := 1000) :
    Except CompareError ComparisonResult :=
  match resolveLap year event sessionType driver1Id lap1 with
  | none => .error .notFound
  | some raw1 =>
      match resolveLap year event sessionType driver2Id lap2 with
      | none => .error .notFound
      | some raw2 => compareLaps raw1 raw2 pointCount

/-! ## Frontend embeddings (TypeScript sources present in the tree) -/

/-- Character-list prefix test (used to model JS `String.includes`). -/
def charsStart : List Char → List Char → Bool
  | _, [] => true
  | [], _ :: _ => false
  | c :: cs, p :: ps => c == p && charsStart cs ps

/-- Character-list containment test. -/
def charsContain : List Char → List Char → Bool
  | [], pat => pat.isEmpty
  | c :: rest, pat => charsStart (c :: rest) pat || charsContain rest pat

/-- JS `s.includes(pat)`. -/
def strContains (s pat : String) : Bool :=
  charsContain s.toList pat.toList

/-- JS `a || b` for a string-or-undefined left operand: the empty string
is falsy, so it falls through to `b` just like `undefined`. -/
def jsOr (a : Option String) (b : String) : String :=
  match a with
  | none => b
  | some s => if s = "" then b else s

/-- The value caught by `apiService.handleApiError`: either an Axios
error — carrying the optional-chained `response?.data?.detail` and its
own `message` string — or any other thrown value. -/
structure AxiosErrorValue where
  responseDetail : Option String
  message : String
deriving DecidableEq

/-- A JS value reaching the `catch` of an API call. -/
inductive CaughtApiValue where
  | axios (e : AxiosErrorValue)
  | other (v : String)
deriving DecidableEq

/-- What the handler throws (it never returns normally: its TS return
type is `never`, modelled by this codomain having no "returned" case). -/
inductive ThrownValue where
  | newError (msg : String)
  | rethrown (v : String)
deriving DecidableEq

/-- Embedded from `apiService.handleApiError`:
`axiosError.response?.data?.detail || axiosError.message || 'An error occurred'`
for Axios errors, rethrow otherwise. -/
def handleApiError : CaughtApiValue → ThrownValue
  | .axios e => .newError (jsOr e.responseDetail (jsOr (some e.message) "An error occurred"))
  | .other v => .rethrown v

/-- The amended contract for `handleApiError`, written from the corrected
claim text: the `detail` field is used only when present AND non-empty,
the Axios `message` only when non-empty, else the literal fallback. -/
def handleApiErrorAmended : CaughtApiValue → ThrownValue
  | .axios e => .newError
      (match e.responseDetail with
       | some d =>
           if d = "" then (if e.message = "" then "An error occurred" else e.message) else d
       | none => if e.message = "" then "An error occurred" else e.message)
  | .other v => .rethrown v

/-- The value caught by the telemetry `catch` blocks: either a JS `Error`
(carrying `err.message`) or any non-`Error` throw. -/
inductive CaughtTelemetryError where
  | errObj (msg : String)
  | nonError
deriving DecidableEq

/-- Embedded from the `catch` of `useTelemetryComparison.compareTelemetry`
(hooks module): the heuristic rewriting of the raw error message into the
user-facing one. -/
def mapTelemetryErrorMsg (year : ℤ) (event sessionType : String)
    (err : CaughtTelemetryError) : String :=
  match err with
  | .nonError => "Failed to load telemetry data"
  | .errObj msg =>
      if strContains msg "not been loaded" || strContains msg "Session.load" then
        if year < 2011 then
          s!"⚠️ Telemetry data is not available for {year}. Telemetry data is only available from 2011 onwards. For best results, use years 2018-2025."
        else if year < 2018 then
          s!"⚠️ Telemetry data is not available for this session ({event} {year} {sessionType}). Some sessions from 2011-2017 may not have complete telemetry. For guaranteed telemetry data, use years 2018-2025."
        else
          "⚠️ Telemetry data could not be loaded for this session. This session may not have telemetry data available, or the data may be corrupted. Try a different session or use years 2018-2025 for best results."
      else if strContains msg "No telemetry data" then
        if year < 2011 then
          s!"⚠️ No telemetry data available for {year}. Telemetry data is only available from 2011 onwards. For best results, use years 2018-2025."
        else if year < 2018 then
          s!"⚠️ Limited or no telemetry data for {year}. Some sessions may not have telemetry. For complete telemetry data, use years 2018-2025."
        else
          s!"⚠️ {msg}. This session may not have telemetry data available."
      else if strContains msg "No laps found" then
        s!"⚠️ {msg}. This driver may not have participated in this session."
      else msg

/-- The `useTelemetryComparison` hook's held state. -/
structure TelemetryHookState where
  data : Option ComparisonResult
  loading : Bool
  error : Option String
deriving Inhabited

/-- Embedded from `useTelemetryComparison.compareTelemetry` (hooks
module): the state held after one call completes.  The call first sets
`loading := true`, `error := null`, `data := null`; on success only
`data` is then set, on failure only `error`; `finally` clears
`loading` — so the final state is fully determined by the outcome. -/
def runTelemetryCompare (year : ℤ) (event sessionType : String)
    (result : Except CaughtTelemetryError ComparisonResult) : TelemetryHookState :=
  match result with
  | .ok d => { data := some d, loading := false, error := none }
  | .error e =>
      { data := none, loading := false
        error := some (mapTelemetryErrorMsg year event sessionType e) }

/-- JS template-literal rendering of a possibly-undefined value. -/
def showOptStr (o : Option String) : String := o.getD "undefined"

/-- JS template-literal rendering of a possibly-undefined number. -/
def showOptInt (o : Option ℤ) : String :=
  match o with
  | none => "undefined"
  | some n => toString n

/-- JS truthiness of `selectedYear && selectedYear < b`: an undefined or
zero year is falsy. -/
def yearTruthyLt (oy : Option ℤ) (b : ℤ) : Bool :=
  match oy with
  | none => false
  | some y => y != 0 && y < b

/-- Embedded from the `catch` of `Dashboard.handleCompare`
(`src/frontend/src/pages/Dashboard.tsx`): the same heuristic message
rewriting, but over the optional selection state. -/
def mapDashboardErrorMsg (selectedYear : Option ℤ)
    (selectedEvent selectedSession : Option String)
    (err : CaughtTelemetryError) : String :=
  match err with
  | .nonError => "Failed to load telemetry data"
  | .errObj msg =>
      if strContains msg "not been loaded" || strContains msg "Session.load" then
        if yearTruthyLt selectedYear 2011 then
          s!"⚠️ Telemetry data is not available for {showOptInt selectedYear}. Telemetry data is only available from 2011 onwards. For best results, use years 2018-2025."
        else if yearTruthyLt selectedYear 2018 then
          s!"⚠️ Telemetry data is not available for this session ({showOptStr selectedEvent} {showOptInt selectedYear} {showOptStr selectedSession}). Some sessions from 2011-2017 may not have complete telemetry. For guaranteed telemetry data, use years 2018-2025."
        else
          "⚠️ Telemetry data could not be loaded for this session. This session may not have telemetry data available, or the data may be corrupted. Try a different session or use years 2018-2025 for best results."
      else if strContains msg "No telemetry data" then
        if yearTruthyLt selectedYear 2011 then
          s!"⚠️ No telemetry data available for {showOptInt selectedYear}. Telemetry data is only available from 2011 onwards. For best results, use years 2018-2025."
        else if yearTruthyLt selectedYear 2018 then
          s!"⚠️ Limited or no telemetry data for {showOptInt selectedYear}. Some sessions may not have telemetry. For complete telemetry data, use years 2018-2025."
        else
          s!"⚠️ {msg}. This session may not have telemetry data available."
      else if strContains msg "No laps found" then
        s!"⚠️ {msg}. This driver may not have participated in this session."
      else msg

/-- The telemetry slice of the `Dashboard` page state. -/
structure DashboardTelemetryState where
  telemetryData : Option ComparisonResult
  loadingTelemetry : Bool
  error : Option String
deriving Inhabited

/-- Embedded from `Dashboard.handleCompare`: state after the
`f1Api.compareTelemetry` call completes (the call first nulls
`telemetryData` and `error`; only one of them is then set). -/
def runDashboardCompare (selectedYear : Option ℤ)
    (selectedEvent selectedSession : Option String)
    (result : Except CaughtTelemetryError ComparisonResult) :
    DashboardTelemetryState :=
  match result with
  | .ok d => { telemetryData := some d, loadingTelemetry := false, error := none }
  | .error e =>
      { telemetryData := none, loadingTelemetry := false
        error := some (mapDashboardErrorMsg selectedYear selectedEvent selectedSession e) }

/-- JS truthiness of a number-or-undefined (`if (options?.lap1)`):
undefined and 0 are falsy. -/
def lapTruthy (o : Option ℤ) : Bool :=
  match o with
  | none => false
  | some n => n != 0

/-- Embedded from `apiService.compareTelemetry`: the query parameter list
sent to `/telemetry/compare` — the five base parameters in constructor
order, then `lap1`/`lap2` appended only when truthy. -/
def compareQuery (year : ℤ) (event sessionType driver1 driver2 : String)
    (lap1 lap2 : Option ℤ) : List (String × String) :=
  let base := [("year", toString year), ("event", event),
    ("session_type", sessionType), ("driver1", driver1), ("driver2", driver2)]
  let withLap1 :=
    match lap1 with
    | some n => if lapTruthy (some n) then base ++ [("lap1", toString n)] else base
    | none => base
  match lap2 with
  | some n => if lapTruthy (some n) then withLap1 ++ [("lap2", toString n)] else withLap1
  | none => withLap1

/-! ## Demonstration inputs used by the witnesses -/

/-- A two-sample raw lap with a present, monotone distance channel. -/
def demoRawA : List RawSample :=
  [{ time := 0, speed := 36, throttle := 100, brake := false, gear := 3,
     rpm := 9000, drs := 0, distance := some 0 },
   { time := 10, speed := 72, throttle := 50, brake := true, gear := 4,
     rpm := 10000, drs := 1, distance := some 100 }]

/-- A second two-sample raw lap with a shorter recorded distance. -/
def demoRawB : List RawSample :=
  [{ time := 0, speed := 40, throttle := 90, brake := true, gear := 2,
     rpm := 8000, drs := 0, distance := some 0 },
   { time := 9, speed := 80, throttle := 60, brake := false, gear := 5,
     rpm := 11000, drs := 1, distance := some 90 }]

/-- A one-sample raw lap (insufficient data). -/
def demoRawSingle : List RawSample :=
  [{ time := 0, speed := 36, throttle := 100, brake := false, gear := 3,
     rpm := 9000, drs := 0, distance := some 0 }]

/-- The result of comparing `demoRawA` against itself at 2 points,
written out value by value. -/
def demoSelfRes : ComparisonResult :=
  { distance := [0, 100]
    driver1_speed := [36, 72], driver2_speed := [36, 72]
    driver1_throttle := [100, 50], driver2_throttle := [100, 50]
    driver1_brake := [false, true], driver2_brake := [false, true]
    driver1_gear := [3, 4], driver2_gear := [3, 4]
    driver1_rpm := [9000, 10000], driver2_rpm := [9000, 10000]
    driver1_drs := [0, 1], driver2_drs := [0, 1]
    delta_time := [0, 0]
    lap_time_delta := 0, max_speed_delta := 0, data_points := 2 }

/-- The result of comparing `demoRawA` against `demoRawB` at 2 points,
written out value by value. -/
def demoRes2 : ComparisonResult :=
  { distance := [0, 90]
    driver1_speed := [36, 342/5], driver2_speed := [40, 80]
    driver1_throttle := [100, 55], driver2_throttle := [90, 60]
    driver1_brake := [false, false], driver2_brake := [true, false]
    driver1_gear := [3, 3], driver2_gear := [2, 5]
    driver1_rpm := [9000, 9900], driver2_rpm := [8000, 11000]
    driver1_drs := [0, 0], driver2_drs := [0, 1]
    delta_time := [0, 0]
    lap_time_delta := -1, max_speed_delta := 58/5, data_points := 2 }

/-- The result of comparing `demoRawA` against `demoRawB` at 3 points,
written out value by value. -/
def demoRes3 : ComparisonResult :=
  { distance := [0, 45, 90]
    driver1_speed := [36, 261/5, 342/5], driver2_speed := [40, 60, 80]
    driver1_throttle := [100, 155/2, 55], driver2_throttle := [90, 75, 60]
    driver1_brake := [false, false, false], driver2_brake := [true, true, false]
    driver1_gear := [3, 3, 3], driver2_gear := [2, 2, 5]
    driver1_rpm := [9000, 9450, 9900], driver2_rpm := [8000, 9500, 11000]
    driver1_drs := [0, 0, 0], driver2_drs := [0, 0, 1]
    delta_time := [0, 0, 0]
    lap_time_delta := -1, max_speed_delta := 58/5, data_points := 3 }

/-! ## Helper lemmas -/

theorem assemble_delta_time (l1 l2 : List LapSample) (n : ℕ) :
    (assemble l1 l2 n).delta_time =
      (commonAxis (min (maxDist l1) (maxDist l2)) n).map (fun d =>
        linInterp (chan l2 (fun s => s.time)) d - linInterp (chan l1 (fun s => s.time)) d) := rfl

theorem assemble_max_speed_delta (l1 l2 : List LapSample) (n : ℕ) :
    (assemble l1 l2 n).max_speed_delta =
      maxAbsDelta
        ((commonAxis (min (maxDist l1) (maxDist l2)) n).map (linInterp (chan l1 (fun s => s.speed))))
        ((commonAxis (min (maxDist l1) (maxDist l2)) n).map (linInterp (chan l2 (fun s => s.speed)))) := rfl

theorem assemble_lap_time_delta (l1 l2 : List LapSample) (n : ℕ) :
    (assemble l1 l2 n).lap_time_delta = totalTime l2 - totalTime l1 := rfl

theorem assemble_data_points (l1 l2 : List LapSample) (n : ℕ) :
    (assemble l1 l2 n).data_points = n := rfl

theorem assemble_driver1_brake (l1 l2 : List LapSample) (n : ℕ) :
    (assemble l1 l2 n).driver1_brake =
      (commonAxis (min (maxDist l1) (maxDist l2)) n).map
        (stepInterp (chan l1 (fun s => s.brake)) (headVal l1 (fun s => s.brake) false)) := rfl

theorem assemble_driver2_brake (l1 l2 : List LapSample) (n : ℕ) :
    (assemble l1 l2 n).driver2_brake =
      (commonAxis (min (maxDist l1) (maxDist l2)) n).map
        (stepInterp (chan l2 (fun s => s.brake)) (headVal l2 (fun s => s.brake) false)) := rfl

/-- Successful runs of the pipeline factor through the assembler on the
two normalised laps. -/
theorem compareLaps_ok {raw1 raw2 : List RawSample} {n : ℕ} {res : ComparisonResult}
    (h : compareLaps raw1 raw2 n = .ok res) :
    ∃ l1 l2, normalizeDistance raw1 = .ok l1 ∧ normalizeDistance raw2 = .ok l2 ∧
      ¬ n < 2 ∧ res = assemble l1 l2 n := by
  unfold compareLaps at h
  by_cases hn : n < 2
  · simp [hn] at h
  · rw [if_neg hn] at h
    cases h1 : normalizeDistance raw1 with
    | error e => rw [h1] at h; simp at h
    | ok l1 =>
        cases h2 : normalizeDistance raw2 with
        | error e => rw [h1, h2] at h; simp at h
        | ok l2 =>
            rw [h1, h2] at h
            dsimp only at h
            by_cases hov : maxDist l1 < minDist l2 ∨ maxDist l2 < minDist l1
            · simp [hov] at h
            · rw [if_neg hov] at h
              refine ⟨l1, l2, rfl, rfl, hn, ?_⟩
              injection h with h'
              exact h'.symm

theorem maxAbsDelta_self (xs : List ℚ) : maxAbsDelta xs xs = 0 := by
  unfold maxAbsDelta
  induction xs with
  | nil => rfl
  | cons a l ih =>
      rw [List.zipWith_cons_cons, List.foldr_cons, ih]
      simp

theorem stepInterp_mem {α : Type} (pts : List (ℚ × α)) (dft : α) (d : ℚ) :
    stepInterp pts dft d = dft ∨ stepInterp pts dft d ∈ pts.map Prod.snd := by
  induction pts generalizing dft with
  | nil => exact .inl rfl
  | cons p rest ih =>
      obtain ⟨x, v⟩ := p
      by_cases hd : d < x
      · exact .inl (by simp [stepInterp, hd])
      · rcases ih v with h | h
        · right
          simp [stepInterp, hd, h]
        · right
          simp only [stepInterp, if_neg hd, List.map_cons]
          exact List.mem_cons_of_mem _ h

theorem chan_map_snd {α : Type} (l : List LapSample) (f : LapSample → α) :
    (chan l f).map Prod.snd = l.map f := by
  unfold chan
  rw [List.map_map]
  rfl

theorem integrateFrom_brake (p : RawSample) (d : ℚ) (rest : List RawSample) :
    (integrateFrom p d rest).map (fun s => s.brake) = rest.map (fun s => s.brake) := by
  induction rest generalizing p d with
  | nil => rfl
  | cons s rest ih => simp [integrateFrom, RawSample.withDistance, ih]

theorem derivedLap_brake (raws : List RawSample) :
    (derivedLap raws).map (fun s => s.brake) = raws.map (fun s => s.brake) := by
  cases raws with
  | nil => rfl
  | cons s rest => simp [derivedLap, RawSample.withDistance, integrateFrom_brake]

theorem passThrough_brake (raws : List RawSample) :
    (passThrough raws).map (fun s => s.brake) = raws.map (fun s => s.brake) := by
  unfold passThrough
  rw [List.map_map]
  rfl

/-- The Distance Normalizer changes only the distance channel: the brake
channel of the normalised lap is the raw brake channel. -/
theorem normalizeDistance_brake {raws : List RawSample} {l : List LapSample}
    (h : normalizeDistance raws = .ok l) :
    l.map (fun s => s.brake) = raws.map (fun s => s.brake) := by
  unfold normalizeDistance at h
  by_cases hlen : raws.length < 2
  · simp [hlen] at h
  · rw [if_neg hlen] at h
    cases hds : rawDistances raws with
    | none =>
        rw [hds] at h
        dsimp only at h
        injection h with h'
        rw [← h']
        exact derivedLap_brake raws
    | some ds =>
        rw [hds] at h
        dsimp only at h
        by_cases hmono : List.Chain' (· ≤ ·) ds
        · rw [if_pos hmono] at h; injection h with h'; rw [← h']; exact passThrough_brake raws
        · rw [if_neg hmono] at h; injection h with h'; rw [← h']; exact derivedLap_brake raws

/-- A successfully normalised lap has at least 2 samples. -/
theorem normalizeDistance_ok_len {raws : List RawSample} {l : List LapSample}
    (h : normalizeDistance raws = .ok l) : ¬ raws.length < 2 := by
  intro hlen
  unfold normalizeDistance at h
  simp [hlen] at h

theorem normalizeDistance_length {raws : List RawSample} {l : List LapSample}
    (h : normalizeDistance raws = .ok l) : l.length = raws.length := by
  have := congrArg List.length (normalizeDistance_brake h)
  simpa using this

theorem normalizeDistance_ne_nil {raws : List RawSample} {l : List LapSample}
    (h : normalizeDistance raws = .ok l) : l ≠ [] := by
  have hlen := normalizeDistance_length h
  have h2 := normalizeDistance_ok_len h
  intro hnil
  rw [hnil] at hlen
  simp at hlen
  omega

theorem headVal_mem {α : Type} (l : List LapSample) (f : LapSample → α) (dft : α)
    (hl : l ≠ []) : headVal l f dft ∈ l.map f := by
  cases l with
  | nil => exact absurd rfl hl
  | cons s rest => simp [headVal]

/-- Evaluation of the pipeline on the demonstration self-comparison. -/
theorem demoCompareSelf_eval : compareLaps demoRawA demoRawA 2 = .ok demoSelfRes := by
  norm_num [compareLaps, normalizeDistance, rawDistances, demoRawA, passThrough,
    RawSample.withDistance, maxDist, minDist, assemble, commonAxis, chan, linInterp,
    stepInterp, headVal, totalTime, maxAbsDelta, demoSelfRes, List.range_succ,
    List.chain'_cons, min_def]

/-- Evaluation of the pipeline on the demonstration laps at 2 points. -/
theorem demoCompareAB2_eval : compareLaps demoRawA demoRawB 2 = .ok demoRes2 := by
  norm_num [compareLaps, normalizeDistance, rawDistances, demoRawA, demoRawB, passThrough,
    RawSample.withDistance, maxDist, minDist, assemble, commonAxis, chan, linInterp,
    stepInterp, headVal, totalTime, maxAbsDelta, demoRes2, List.range_succ,
    List.chain'_cons, min_def, sup_eq_max, max_def, abs_div]

/-- Evaluation of the pipeline on the demonstration laps at 3 points. -/
theorem demoCompareAB3_eval : compareLaps demoRawA demoRawB 3 = .ok demoRes3 := by
  norm_num [compareLaps, normalizeDistance, rawDistances, demoRawA, demoRawB, passThrough,
    RawSample.withDistance, maxDist, minDist, assemble, commonAxis, chan, linInterp,
    stepInterp, headVal, totalTime, maxAbsDelta, demoRes3, List.range_succ,
    List.chain'_cons, min_def, sup_eq_max, max_def, abs_div]

/-! ## Claim theorems -/

/-- C1: the shared distance axis of the Common-Axis Resampler, for the
overlap length `m = min (maxDist L1) (maxDist L2) > 0` of two valid
overlapping laps and a configured point count `n ≥ 2`, has exactly `n`
points, is strictly increasing, starts at 0 and ends at `m`. -/
theorem commonAxis_spec (m : ℚ) (n : ℕ) (hn : 2 ≤ n) (hm : 0 < m) :
    (commonAxis m n).length = n ∧
    List.Sorted (· < ·) (commonAxis m n) ∧
    (commonAxis m n).head? = some 0 ∧
    (commonAxis m n).getLast? = some m := by
  obtain ⟨k, rfl⟩ : ∃ k, n = k + 2 := ⟨n - 2, by omega⟩
  have hden : (0 : ℚ) < ((k + 2 : ℕ) : ℚ) - 1 := by push_cast; linarith
  refine ⟨by simp [commonAxis], ?_, ?_, ?_⟩
  · unfold commonAxis
    rw [List.Sorted]
    rw [List.pairwise_map]
    refine (List.pairwise_lt_range _).imp ?_
    intro a b hab
    have hcast : (a : ℚ) < b := by exact_mod_cast hab
    have hpos : (0 : ℚ) < m / (((k + 2 : ℕ) : ℚ) - 1) := div_pos hm hden
    have := mul_lt_mul_of_pos_right hcast hpos
    simpa [mul_div_assoc] using this
  · unfold commonAxis
    rw [show k + 2 = (k + 1) + 1 from rfl, List.range_succ_eq_map]
    simp
  · unfold commonAxis
    rw [show k + 2 = (k + 1) + 1 from rfl, List.range_succ, List.map_append]
    simp only [List.map_cons, List.map_nil]
    rw [List.getLast?_concat]
    have hne : (((k + 1 + 1 : ℕ) : ℚ) - 1) ≠ 0 := by push_cast; ring_nf; positivity
    rw [Option.some.injEq]
    field_simp

/-- C1 witness: at `m = 1`, `n = 2` the axis is `[0, 1]`. -/
theorem commonAxis_spec_witness :
    (commonAxis 1 2).length = 2 ∧
    List.Sorted (· < ·) (commonAxis 1 2) ∧
    (commonAxis 1 2).head? = some 0 ∧
    (commonAxis 1 2).getLast? = some 1 :=
  commonAxis_spec 1 2 (by norm_num) (by norm_num)

/-- C4: a lap with fewer than 2 samples makes the Distance Normalizer
fail with `InsufficientDataError`. -/
theorem normalizeDistance_insufficient (samples : List RawSample)
    (h : samples.length < 2) :
    normalizeDistance samples = .error .insufficientData := by
  unfold normalizeDistance
  simp [h]

/-- C4 witness: a one-sample lap yields `InsufficientDataError`. -/
theorem normalizeDistance_insufficient_witness :
    normalizeDistance demoRawSingle = .error .insufficientData :=
  normalizeDistance_insufficient demoRawSingle (by simp [demoRawSingle])

/-- C2: comparing a lap against itself yields a delta-time sequence that
is 0 at every axis point and a `max_speed_delta` of 0. -/
theorem selfCompare_zero (raw : List RawSample) (n : ℕ) (res : ComparisonResult)
    (h : compareLaps raw raw n = .ok res) :
    (∀ x ∈ res.delta_time, x = 0) ∧ res.max_speed_delta = 0 := by
  obtain ⟨l1, l2, h1, h2, hn, rfl⟩ := compareLaps_ok h
  have hl : l1 = l2 := by
    rw [h1] at h2
    injection h2
  subst hl
  constructor
  · intro x hx
    rw [assemble_delta_time] at hx
    simp only [List.mem_map] at hx
    obtain ⟨d, _, hd⟩ := hx
    rw [← hd]
    exact sub_self _
  · rw [assemble_max_speed_delta]
    exact maxAbsDelta_self _

/-- C2 witness: self-comparison of the demonstration lap at 2 points. -/
theorem selfCompare_zero_witness :
    (∀ x ∈ demoSelfRes.delta_time, x = 0) ∧ demoSelfRes.max_speed_delta = 0 :=
  selfCompare_zero demoRawA 2 demoSelfRes demoCompareSelf_eval

/-- C3: `lap_time_delta` is computed from the two laps' original total
lap times, so it does not depend on the configured point count. -/
theorem lapTimeDelta_pointCount_independent (raw1 raw2 : List RawSample)
    (n1 n2 : ℕ) (r1 r2 : ComparisonResult)
    (hn1 : 2 ≤ n1) (hn2 : 2 ≤ n2)
    (h1 : compareLaps raw1 raw2 n1 = .ok r1)
    (h2 : compareLaps raw1 raw2 n2 = .ok r2) :
    r1.lap_time_delta = r2.lap_time_delta := by
  obtain ⟨l1, l2, e1, e2, _, rfl⟩ := compareLaps_ok h1
  obtain ⟨l1', l2', e1', e2', _, rfl⟩ := compareLaps_ok h2
  have hA : l1 = l1' := by rw [e1] at e1'; injection e1'
  have hB : l2 = l2' := by rw [e2] at e2'; injection e2'
  subst hA; subst hB
  rw [assemble_lap_time_delta, assemble_lap_time_delta]

/-- C3 witness: point counts 2 and 3 give the same `lap_time_delta` on
the demonstration laps. -/
theorem lapTimeDelta_pointCount_independent_witness :
    demoRes2.lap_time_delta = demoRes3.lap_time_delta :=
  lapTimeDelta_pointCount_independent demoRawA demoRawB 2 3 demoRes2 demoRes3
    (by norm_num) (by norm_num) demoCompareAB2_eval demoCompareAB3_eval

/-- C7: in every comparison response, all arrays of `comparison_data`
have the same length, equal to the scalar `data_points` field. -/
theorem responseArrays_length (raw1 raw2 : List RawSample) (n : ℕ)
    (res : ComparisonResult) (h : compareLaps raw1 raw2 n = .ok res) :
    res.distance.length = res.data_points ∧
    res.driver1_speed.length = res.data_points ∧
    res.driver2_speed.length = res.data_points ∧
    res.driver1_throttle.length = res.data_points ∧
    res.driver2_throttle.length = res.data_points ∧
    res.driver1_brake.length = res.data_points ∧
    res.driver2_brake.length = res.data_points ∧
    res.driver1_gear.length = res.data_points ∧
    res.driver2_gear.length = res.data_points ∧
    res.driver1_rpm.length = res.data_points ∧
    res.driver2_rpm.length = res.data_points ∧
    res.driver1_drs.length = res.data_points ∧
    res.driver2_drs.length = res.data_points ∧
    res.delta_time.length = res.data_points := by
  obtain ⟨l1, l2, _, _, _, rfl⟩ := compareLaps_ok h
  refine ⟨?_, ?_, ?_, ?_, ?_, ?_, ?_, ?_, ?_, ?_, ?_, ?_, ?_, ?_⟩ <;>
    simp [assemble, commonAxis]

/-- C7 witness: the demonstration comparison at 2 points. -/
theorem responseArrays_length_witness :
    demoRes2.distance.length = demoRes2.data_points ∧
    demoRes2.driver1_speed.length = demoRes2.data_points ∧
    demoRes2.driver2_speed.length = demoRes2.data_points ∧
    demoRes2.driver1_throttle.length = demoRes2.data_points ∧
    demoRes2.driver2_throttle.length = demoRes2.data_points ∧
    demoRes2.driver1_brake.length = demoRes2.data_points ∧
    demoRes2.driver2_brake.length = demoRes2.data_points ∧
    demoRes2.driver1_gear.length = demoRes2.data_points ∧
    demoRes2.driver2_gear.length = demoRes2.data_points ∧
    demoRes2.driver1_rpm.length = demoRes2.data_points ∧
    demoRes2.driver2_rpm.length = demoRes2.data_points ∧
    demoRes2.driver1_drs.length = demoRes2.data_points ∧
    demoRes2.driver2_drs.length = demoRes2.data_points ∧
    demoRes2.delta_time.length = demoRes2.data_points :=
  responseArrays_length demoRawA demoRawB 2 demoRes2 demoCompareAB2_eval

/-- C8: the brake channels of the response are lists of booleans (the
field types are `List Bool`), and every element is one of the original
lap's recorded brake values — step interpolation never blends. -/
theorem brake_from_samples (raw1 raw2 : List RawSample) (n : ℕ)
    (res : ComparisonResult) (h : compareLaps raw1 raw2 n = .ok res) :
    (∀ b ∈ res.driver1_brake, b ∈ raw1.map (fun s => s.brake)) ∧
    (∀ b ∈ res.driver2_brake, b ∈ raw2.map (fun s => s.brake)) := by
  obtain ⟨l1, l2, h1, h2, hn, rfl⟩ := compareLaps_ok h
  have key : ∀ (l : List LapSample) (raws : List RawSample),
      normalizeDistance raws = .ok l →
      ∀ d : ℚ, stepInterp (chan l (fun s => s.brake)) (headVal l (fun s => s.brake) false) d
        ∈ raws.map (fun s => s.brake) := by
    intro l raws hok d
    have hne : l ≠ [] := normalizeDistance_ne_nil hok
    rw [← normalizeDistance_brake hok]
    rcases stepInterp_mem (chan l (fun s => s.brake)) (headVal l (fun s => s.brake) false) d
      with hc | hc
    · rw [hc]
      exact headVal_mem _ _ _ hne
    · rw [chan_map_snd] at hc
      exact hc
  constructor
  · intro b hb
    rw [assemble_driver1_brake] at hb
    simp only [List.mem_map] at hb
    obtain ⟨d, _, hd⟩ := hb
    rw [← hd]
    exact key l1 raw1 h1 d
  · intro b hb
    rw [assemble_driver2_brake] at hb
    simp only [List.mem_map] at hb
    obtain ⟨d, _, hd⟩ := hb
    rw [← hd]
    exact key l2 raw2 h2 d

/-- C8 witness: in the demonstration comparison every resampled brake
value is one of the corresponding raw lap's brake values. -/
theorem brake_from_samples_witness :
    (∀ b ∈ demoRes2.driver1_brake, b ∈ demoRawA.map (fun s => s.brake)) ∧
    (∀ b ∈ demoRes2.driver2_brake, b ∈ demoRawB.map (fun s => s.brake)) :=
  brake_from_samples demoRawA demoRawB 2 demoRes2 demoCompareAB2_eval

/-- C5: after a failed `compareTelemetry` call, both the hook state and
the Dashboard state hold no telemetry data and exactly one error
message; and for every outcome, data and error are never both set. -/
theorem failedCompare_state (y : ℤ) (ev ss : String) (oy : Option ℤ)
    (oev oss : Option String) (e : CaughtTelemetryError) :
    (runTelemetryCompare y ev ss (.error e)).data = none ∧
    (∃ m, (runTelemetryCompare y ev ss (.error e)).error = some m) ∧
    (runDashboardCompare oy oev oss (.error e)).telemetryData = none ∧
    (∃ m, (runDashboardCompare oy oev oss (.error e)).error = some m) ∧
    (∀ r, (runTelemetryCompare y ev ss r).data = none ∨
      (runTelemetryCompare y ev ss r).error = none) ∧
    (∀ r, (runDashboardCompare oy oev oss r).telemetryData = none ∨
      (runDashboardCompare oy oev oss r).error = none) := by
  refine ⟨rfl, ⟨_, rfl⟩, rfl, ⟨_, rfl⟩, ?_, ?_⟩ <;>
    intro r <;> cases r <;> simp [runTelemetryCompare, runDashboardCompare]

/-- C6: the core operation accepts year, event, session type, the two
driver ids, the two optional lap selectors and a `pointCount` defaulting
to 1000, and its outcome is always either a `ComparisonResult` or a
structured error. -/
theorem compareTelemetry_contract
    (resolveLap : ℤ → String → String → String → Option ℕ → Option (List RawSample))
    (year : ℤ) (event sessionType d1 d2 : String) (lap1 lap2 : Option ℕ) :
    compareTelemetry resolveLap year event sessionType d1 d2 lap1 lap2
      = compareTelemetry resolveLap year event sessionType d1 d2 lap1 lap2 1000 ∧
    ((∃ r, compareTelemetry resolveLap year event sessionType d1 d2 lap1 lap2 = .ok r) ∨
     (∃ err, compareTelemetry resolveLap year event sessionType d1 d2 lap1 lap2 = .error err)) := by
  refine ⟨rfl, ?_⟩
  cases h : compareTelemetry resolveLap year event sessionType d1 d2 lap1 lap2 with
  | ok r => exact .inl ⟨r, rfl⟩
  | error err => exact .inr ⟨err, rfl⟩

/-- C9 counterexample: with a present-but-empty `detail` field
(`response.data.detail = ""`), the handler throws the Axios message, not
the present `detail` — JS `||` skips the empty string. -/
theorem handleApiError_empty_detail_cex :
    handleApiError (.axios { responseDetail := some "", message := "Network Error" })
        = .newError "Network Error" ∧
    ("Network Error" : String) ≠ "" := by
  constructor
  · simp [handleApiError, jsOr]
  · decide

/-- C9 (amended): the handler wraps Axios errors in an `Error` whose
message is `detail` when present and non-empty, else the Axios `message`
when non-empty, else the literal fallback; non-Axios values are rethrown
unchanged; every input maps to a throw (the handler never returns
normally). -/
theorem handleApiError_refines_amended (v : CaughtApiValue) :
    handleApiError v = handleApiErrorAmended v := by
  cases v with
  | other w => rfl
  | axios e =>
      obtain ⟨od, msg⟩ := e
      cases od with
      | none => simp [handleApiError, handleApiErrorAmended, jsOr]
      | some d =>
          by_cases hd : d = "" <;> by_cases hm : msg = "" <;>
            simp [handleApiError, handleApiErrorAmended, jsOr, hd, hm]

/-- C10: a `lap1`/`lap2` query parameter is sent iff the optional lap
number is truthy (present and nonzero); a truthy lap number is forwarded
verbatim. -/
theorem lapParams_iff_truthy (year : ℤ) (event sessionType d1 d2 : String)
    (lap1 lap2 : Option ℤ) :
    ((∃ v, ("lap1", v) ∈ compareQuery year event sessionType d1 d2 lap1 lap2) ↔
      (∃ n, lap1 = some n ∧ n ≠ 0)) ∧
    ((∃ v, ("lap2", v) ∈ compareQuery year event sessionType d1 d2 lap1 lap2) ↔
      (∃ n, lap2 = some n ∧ n ≠ 0)) ∧
    (∀ n, lap1 = some n → n ≠ 0 →
      ("lap1", toString n) ∈ compareQuery year event sessionType d1 d2 lap1 lap2) ∧
    (∀ n, lap2 = some n → n ≠ 0 →
      ("lap2", toString n) ∈ compareQuery year event sessionType d1 d2 lap1 lap2) := by
  have h1 : ("lap1" : String) ≠ "year" := by decide
  have h2 : ("lap1" : String) ≠ "event" := by decide
  have h3 : ("lap1" : String) ≠ "session_type" := by decide
  have h4 : ("lap1" : String) ≠ "driver1" := by decide
  have h5 : ("lap1" : String) ≠ "driver2" := by decide
  have h6 : ("lap2" : String) ≠ "year" := by decide
  have h7 : ("lap2" : String) ≠ "event" := by decide
  have h8 : ("lap2" : String) ≠ "session_type" := by decide
  have h9 : ("lap2" : String) ≠ "driver1" := by decide
  have h10 : ("lap2" : String) ≠ "driver2" := by decide
  have h11 : ("lap2" : String) ≠ "lap1" := by decide
  have h12 : ("lap1" : String) ≠ "lap2" := by decide
  rcases lap1 with _ | n1 <;> rcases lap2 with _ | n2
  · simp [compareQuery, lapTruthy, h1, h2, h3, h4, h5, h6, h7, h8, h9, h10]
  · by_cases hn2 : n2 = 0 <;>
      simp [compareQuery, lapTruthy, hn2, h1, h2, h3, h4, h5, h6, h7, h8, h9, h10]
  · by_cases hn1 : n1 = 0 <;>
      simp [compareQuery, lapTruthy, hn1, h1, h2, h3, h4, h5, h6, h7, h8, h9, h10, h11, h12]
  · by_cases hn1 : n1 = 0 <;> by_cases hn2 : n2 = 0 <;>
      simp [compareQuery, lapTruthy, hn1, hn2, h1, h2, h3, h4, h5, h6, h7, h8, h9, h10, h11, h12]

/-- C10 witness: with `lap1 = 0` and `lap2 = 44` the request carries a
`lap2` parameter with value `"44"` and no `lap1` parameter. -/
theorem lapParams_iff_truthy_witness :
    ("lap2", toString (44 : ℤ)) ∈
      compareQuery 2024 "Monaco" "Q" "VER" "LEC" (some 0) (some 44) ∧
    ¬ ∃ v, ("lap1", v) ∈ compareQuery 2024 "Monaco" "Q" "VER" "LEC" (some 0) (some 44) := by
  have h := lapParams_iff_truthy 2024 "Monaco" "Q" "VER" "LEC" (some 0) (some 44)
  refine ⟨h.2.2.2 44 rfl (by decide), fun hex => ?_⟩
  obtain ⟨n, hn, hne⟩ := h.1.mp hex
  injection hn with hn0
  exact hne hn0.symm

end F1Telemetry
